import Mathlib

/-!
Verification of the workflow-runner specification of the
langchain-langgraph-starter repository against the graph demonstrated in
Tutorial 07: nodes `greet` and `get_name`, entry `greet`, edges
greet → get_name → terminal, and the interactive driver loop that injects
external input when `next_step` equals `"get_name"`.
-/

namespace Tutorial07

/-- A chat message: the source stores dictionaries with a `role` key and a
`content` key in the `messages` list of the state. -/
structure Message where
  role : String
  content : String
deriving DecidableEq, Repr

/-- The shared state record of the workflow, from the source:
`class State(TypedDict)` with fields `messages: List[BaseMessage]` and
`next_step: str`. -/
structure State where
  messages : List Message
  next_step : String
deriving DecidableEq, Repr

/-- The terminal sentinel: `get_name` sets `next_step` to `"end"` and the
run loop stops there. -/
def terminal : String := "end"

/-- The node `greet` from the source: appends the assistant greeting and
sets `next_step` to `"get_name"`. -/
def greet (state : State) : State :=
  { state with
    messages := state.messages ++
      [⟨"assistant", "Hello! What\x27s your name?"⟩],
    next_step := "get_name" }

/-- The node `get_name` from the source: reads the content of the last
message of `messages` (in Python, index `-1`, an out-of-bounds error when
`messages` is empty, modelled as `none`), appends the personalized
assistant reply, and sets `next_step` to `"end"`. -/
def get_name (state : State) : Option State :=
  match state.messages.getLast? with
  | none => none
  | some m =>
      some { state with
        messages := state.messages ++
          [⟨"assistant",
            "Nice to meet you, " ++ m.content ++ "! How can I assist you today?"⟩],
        next_step := "end" }

/-- A node function. Modelled from the spec: a node is "a function
`State -> State`"; the demonstrated `get_name` can fail with an
out-of-bounds read, so a node returns `Option State`, with `none` marking
a runtime error of the node itself. -/
abbrev NodeFn := State → Option State

/-- Modelled from the spec: the Workflow Runner "holds a small directed
graph of named steps"; the runner itself is library code that is not part
of the repository, so its data (node table, edge table, entry node) is
modelled from the data-model section of the spec. -/
structure Graph where
  nodes : List (String × NodeFn)
  edges : List (String × String)
  entry : Option String

/-- The empty graph, before any registration. -/
def Graph.empty : Graph := ⟨[], [], none⟩

/-- Whether a node function is registered under `name`. -/
def registered (g : Graph) (name : String) : Bool :=
  g.nodes.any (fun p => p.1 == name)

/-- Look up the node function registered under `name`. -/
def lookupNode (g : Graph) (name : String) : Option NodeFn :=
  (g.nodes.find? (fun p => p.1 == name)).map (fun p => p.2)

/-- Modelled from the spec: the ConfigurationError taxonomy — "duplicate
node name, unknown entry node, edge referencing an unknown node, or a node
returning an unknown `next_step`". -/
inductive ConfigError where
  | duplicateNode : String → ConfigError
  | unknownEntry : String → ConfigError
  | unknownEdgeSource : String → ConfigError
deriving DecidableEq, Repr

/-- Modelled from the spec: `register(name, fn)` "adds a node; fails with
a configuration error if `name` already exists". -/
def register (g : Graph) (name : String) (fn : NodeFn) :
    Except ConfigError Graph :=
  if registered g name then .error (.duplicateNode name)
  else .ok { g with nodes := g.nodes ++ [(name, fn)] }

/-- Modelled from the spec: `connect(from, to)` "adds a directed edge;
fails if `from` is unknown". -/
def connect (g : Graph) (src dst : String) : Except ConfigError Graph :=
  if registered g src then .ok { g with edges := g.edges ++ [(src, dst)] }
  else .error (.unknownEdgeSource src)

/-- Modelled from the spec: `set_entry(name)` "designates the starting
node; fails if `name` is unknown". The check happens at configuration
time, before any node executes. -/
def set_entry (g : Graph) (name : String) : Except ConfigError Graph :=
  if registered g name then .ok { g with entry := some name }
  else .error (.unknownEntry name)

/-- Modelled from the spec: the outcome of `run` — the finite sequence of
intermediate states (one per executed node), ending normally at the
terminal sentinel, or in a configuration error (unknown `next_step` or
unknown entry), or in a runtime error of a node; `outOfFuel` is the
step-count guard the spec allows an implementer to add against
misconfigured cycles. -/
inductive RunResult where
  | ok : List State → RunResult
  | configError : List State → RunResult
  | nodeError : List State → RunResult
  | outOfFuel : List State → RunResult
deriving DecidableEq, Repr

/-- Prepend the output state of an executed node to the trace of a
result. -/
def consTrace (s : State) : RunResult → RunResult
  | .ok tr => .ok (s :: tr)
  | .configError tr => .configError (s :: tr)
  | .nodeError tr => .nodeError (s :: tr)
  | .outOfFuel tr => .outOfFuel (s :: tr)

/-- The trace of intermediate states carried by a run result. -/
def traceOf : RunResult → List State
  | .ok tr => tr
  | .configError tr => tr
  | .nodeError tr => tr
  | .outOfFuel tr => tr

/-- The external-input injection of the driver loop in the source: after
each streamed step it checks whether `next_step` equals the suspension
sentinel, reads `user_input = input(...)`, and appends a message with role
`"human"` and the read content to `messages`. `susp` is the suspension
sentinel (`"get_name"` in the source); the pending external inputs are
modelled as a list consumed front-first, and no injection happens when no
input is pending. -/
def injectInput (susp : String) (inputs : List String) (s : State) :
    List String × State :=
  if s.next_step == susp then
    match inputs with
    | [] => (inputs, s)
    | i :: rest => (rest, { s with messages := s.messages ++ [⟨"human", i⟩] })
  else (inputs, s)

/-- Modelled from the spec: the stepwise execution loop of `run`. "At each
step: look up the current node by `next_step` (or the entry node on the
first iteration), invoke it with the current state, replace the state with
its return value, and stop when `next_step` equals the terminal sentinel.
If the returned `next_step` names an unregistered node, execution fails
with a configuration error"; between steps the loop performs the
suspension-point input injection of the driver (`injectInput`). Fuel
bounds the number of steps; the unconsumed external inputs are returned
alongside the result. -/
def runAux (g : Graph) (susp : String) :
    Nat → List String → String → State → RunResult × List String
  | 0, inputs, _, _ => (.outOfFuel [], inputs)
  | fuel + 1, inputs, cur, state =>
    match lookupNode g cur with
    | none => (.configError [], inputs)
    | some f =>
      match f state with
      | none => (.nodeError [], inputs)
      | some s1 =>
        if s1.next_step == terminal then (.ok [s1], inputs)
        else
          let p := injectInput susp inputs s1
          let r := runAux g susp fuel p.1 s1.next_step p.2
          (consTrace s1 r.1, r.2)

/-- Modelled from the spec: `run(initial_state)` starts at the designated
entry node (a missing entry is a configuration error) and iterates
`runAux` until the terminal sentinel. -/
def run (g : Graph) (susp : String) (fuel : Nat) (inputs : List String)
    (init : State) : RunResult × List String :=
  match g.entry with
  | none => (.configError [], inputs)
  | some e => runAux g susp fuel inputs e init

/-- The suspension sentinel of the driver loop in the source: input is
requested when `next_step` of the streamed output equals `"get_name"`. -/
def suspendSentinel : String := "get_name"

/-- The `greet` node wrapped as a (total) node function. -/
def greetNode : NodeFn := fun s => some (greet s)

/-- The demonstrated two-node graph, as the notebook builds it with
`add_node("greet", greet)`, `add_node("get_name", get_name)`,
`set_entry_point("greet")`, `add_edge("greet", "get_name")` and
`add_edge("get_name", END)`. -/
def workflow : Graph :=
  { nodes := [("greet", greetNode), ("get_name", get_name)],
    edges := [("greet", "get_name"), ("get_name", terminal)],
    entry := some "greet" }

/-- A node that returns an unregistered `next_step`, used to exhibit the
configuration-error path of the runner on a concrete graph. -/
def badFn : NodeFn := fun s => some { s with next_step := "nowhere" }

/-- A one-node graph whose single node transitions to an unregistered
name. -/
def badGraph : Graph :=
  { nodes := [("bad", badFn)], edges := [], entry := some "bad" }

/-- `s` contains the literal `lit` as a substring. -/
def containsLit (s lit : String) : Prop := ∃ pre post, s = pre ++ lit ++ post

/-- The construction sequence of the notebook, replayed through the
builder operations of the spec, succeeds and yields exactly `workflow`. -/
theorem buildWorkflow_ok :
    (do
      let g ← register Graph.empty "greet" greetNode
      let g ← register g "get_name" get_name
      let g ← set_entry g "greet"
      let g ← connect g "greet" "get_name"
      connect g "get_name" terminal : Except ConfigError Graph) =
    Except.ok workflow := rfl

/-- C1: for the demonstrated two-node graph, `run(initial_state)` (with no
external input pending) executes `greet` first, then `get_name`, then
stops; the final `messages` equals the initial messages followed by
exactly the message appended by `greet` and then the one appended by
`get_name`, in that order. -/
theorem run_demo_visits_greet_then_get_name (fuel : Nat) (init : State) :
    (run workflow suspendSentinel (fuel + 2) [] init).1 =
      RunResult.ok
        [ { messages := init.messages ++
              [⟨"assistant", "Hello! What\x27s your name?"⟩],
            next_step := "get_name" },
          { messages := init.messages ++
              [⟨"assistant", "Hello! What\x27s your name?"⟩,
               ⟨"assistant",
                 "Nice to meet you, Hello! What\x27s your name?! How can I assist you today?"⟩],
            next_step := "end" } ] := by
  simp [run, workflow, greetNode, runAux, lookupNode, greet, get_name,
        injectInput, consTrace, terminal, suspendSentinel, List.getLast?_concat]

/-- C2 (counterexample): running the documented example from the empty
initial state and supplying `"Rahul"` at the suspension point does NOT
yield a final `messages` of length 2 — the final state of the run holds 3
messages. -/
theorem demo_run_final_length_ne_two :
    ¬ ((traceOf (run workflow suspendSentinel 2 ["Rahul"]
          { messages := [], next_step := "" }).1).getLast?.map
        (fun s => s.messages.length) = some 2) := by decide

/-- C2 (amended): running the documented example graph with
`initial_state = {messages: [], next_step: ""}` and supplying the literal
string `"Rahul"` at the suspension point yields a final `messages` list of
length exactly 3 — the assistant greeting, the injected human input, and
the personalized reply — where the second and the third message both
contain the literal `"Rahul"`. -/
theorem demo_run_with_rahul_yields_three_messages :
    (run workflow suspendSentinel 2 ["Rahul"]
        { messages := [], next_step := "" }).1 =
      RunResult.ok
        [ { messages := [⟨"assistant", "Hello! What\x27s your name?"⟩],
            next_step := "get_name" },
          { messages := [⟨"assistant", "Hello! What\x27s your name?"⟩,
                         ⟨"human", "Rahul"⟩,
                         ⟨"assistant",
                           "Nice to meet you, Rahul! How can I assist you today?"⟩],
            next_step := "end" } ] ∧
    (∃ s : State,
      (traceOf (run workflow suspendSentinel 2 ["Rahul"]
          { messages := [], next_step := "" }).1).getLast? = some s ∧
      s.messages.length = 3 ∧
      (∃ m2, s.messages[1]? = some m2 ∧ containsLit m2.content "Rahul") ∧
      (∃ m3, s.messages[2]? = some m3 ∧ containsLit m3.content "Rahul")) := by
  refine ⟨rfl, ⟨_, rfl, rfl, ⟨⟨"human", "Rahul"⟩, rfl, "", "", rfl⟩,
    ⟨⟨"assistant", "Nice to meet you, Rahul! How can I assist you today?"⟩, rfl,
      "Nice to meet you, ", "! How can I assist you today?", rfl⟩⟩⟩

/-- C3: for every graph and every reachable configuration, if the node
currently executed returns a state whose `next_step` is neither the
terminal sentinel nor a registered node name, the run fails with a
configuration error (it does not silently stop), and the trace of the
failed run still carries the output state of that node — its appended
messages and field updates stay applied, with no rollback. -/
theorem unknown_next_step_config_error (g : Graph) (susp : String)
    (fuel : Nat) (inputs : List String) (cur : String) (state : State)
    (f : NodeFn) (s1 : State)
    (hf : lookupNode g cur = some f) (hs : f state = some s1)
    (hterm : s1.next_step ≠ terminal)
    (hunk : lookupNode g s1.next_step = none) :
    (runAux g susp (fuel + 2) inputs cur state).1 =
      RunResult.configError [s1] := by
  simp [runAux, hf, hs, hterm, hunk, consTrace]

/-- C3 witness: on the concrete graph `badGraph`, whose node `bad` jumps
to the unregistered name `"nowhere"`, the run fails with a configuration
error and the state mutated by `bad` is kept in the trace. -/
theorem unknown_next_step_config_error_witness :
    lookupNode badGraph "bad" = some badFn ∧
    badFn { messages := [], next_step := "" } =
      some { messages := [], next_step := "nowhere" } ∧
    ("nowhere" : String) ≠ terminal ∧
    lookupNode badGraph "nowhere" = none ∧
    (runAux badGraph "x" (0 + 2) [] "bad"
        { messages := [], next_step := "" }).1 =
      RunResult.configError [{ messages := [], next_step := "nowhere" }] :=
  ⟨rfl, rfl, by decide, rfl,
    unknown_next_step_config_error badGraph "x" 0 [] "bad"
      { messages := [], next_step := "" } badFn
      { messages := [], next_step := "nowhere" } rfl rfl (by decide) rfl⟩

/-- C4: in every run of the demonstrated workflow (with any pending
external inputs and any initial state), the run succeeds in two steps and
every state in the trace — that is, the state immediately after each
executed node — has a `next_step` that is either a registered node name or
the terminal sentinel. -/
theorem demo_next_step_registered_or_terminal (fuel : Nat)
    (inputs : List String) (init : State) :
    ∃ s1 s2,
      (run workflow suspendSentinel (fuel + 2) inputs init).1 =
        RunResult.ok [s1, s2] ∧
      (registered workflow s1.next_step = true ∨ s1.next_step = terminal) ∧
      (registered workflow s2.next_step = true ∨ s2.next_step = terminal) := by
  cases inputs with
  | nil =>
      refine ⟨⟨init.messages ++ [⟨"assistant", "Hello! What\x27s your name?"⟩],
                "get_name"⟩,
              ⟨init.messages ++
                 [⟨"assistant", "Hello! What\x27s your name?"⟩,
                  ⟨"assistant",
                    "Nice to meet you, Hello! What\x27s your name?! How can I assist you today?"⟩],
                "end"⟩, ?_, Or.inl rfl, Or.inr rfl⟩
      simp [run, workflow, greetNode, runAux, lookupNode, greet, get_name,
            injectInput, consTrace, terminal, suspendSentinel,
            List.getLast?_concat]
  | cons i rest =>
      refine ⟨⟨init.messages ++ [⟨"assistant", "Hello! What\x27s your name?"⟩],
                "get_name"⟩,
              ⟨init.messages ++
                 [⟨"assistant", "Hello! What\x27s your name?"⟩,
                  ⟨"human", i⟩,
                  ⟨"assistant",
                    "Nice to meet you, " ++ i ++ "! How can I assist you today?"⟩],
                "end"⟩, ?_, Or.inl rfl, Or.inr rfl⟩
      simp [run, workflow, greetNode, runAux, lookupNode, greet, get_name,
            injectInput, consTrace, terminal, suspendSentinel,
            List.getLast?_concat]

/-- C5: two runs of the same compiled graph from equal, separately
constructed initial states, with the same externally supplied inputs at
suspension points, produce identical output message sequences. The runner
is a pure function of the graph, the inputs and the initial state, so
equal components force equal traces. -/
theorem run_deterministic (g : Graph) (susp : String) (fuel : Nat)
    (inputs : List String) (m1 m2 : List Message) (n1 n2 : String)
    (hm : m1 = m2) (hn : n1 = n2) :
    (traceOf (run g susp fuel inputs ⟨m1, n1⟩).1).map State.messages =
    (traceOf (run g susp fuel inputs ⟨m2, n2⟩).1).map State.messages := by
  subst hm; subst hn; rfl

/-- C5 witness: determinism instantiated on the demonstrated workflow at
the documented initial state with input `"Rahul"`. -/
theorem run_deterministic_witness :
    ([] : List Message) = [] ∧ ("" : String) = "" ∧
    (traceOf (run workflow suspendSentinel 2 ["Rahul"]
        ⟨[], ""⟩).1).map State.messages =
    (traceOf (run workflow suspendSentinel 2 ["Rahul"]
        ⟨[], ""⟩).1).map State.messages :=
  ⟨rfl, rfl,
    run_deterministic workflow suspendSentinel 2 ["Rahul"] [] [] "" "" rfl rfl⟩

/-- C6: registering a node under a name that already has a registered node
fails with a configuration error (duplicate node name) on the second
registration, and the original registration — the first function bound to
that name — is left intact and unchanged. -/
theorem register_duplicate_fails (g : Graph) (name : String)
    (fn0 fn1 : NodeFn) (h : lookupNode g name = some fn0) :
    register g name fn1 = Except.error (ConfigError.duplicateNode name) ∧
    lookupNode g name = some fn0 := by
  refine ⟨?_, h⟩
  have hreg : registered g name = true := by
    unfold lookupNode at h
    rcases Option.map_eq_some'.1 h with ⟨p, hp, _⟩
    have hpred := List.find?_some hp
    exact List.any_eq_true.2 ⟨p, List.mem_of_find?_eq_some hp, hpred⟩
  simp [register, hreg]

/-- C6 witness: re-registering `"greet"` on the demonstrated workflow
fails and leaves the original `greet` binding in place. -/
theorem register_duplicate_fails_witness :
    lookupNode workflow "greet" = some greetNode ∧
    register workflow "greet" get_name =
      Except.error (ConfigError.duplicateNode "greet") ∧
    lookupNode workflow "greet" = some greetNode :=
  ⟨rfl, register_duplicate_fails workflow "greet" greetNode get_name rfl⟩

/-- C7: designating as entry node a name for which no node function is
registered fails with a configuration error; the check is performed by the
configuration operation itself, before any node executes. -/
theorem set_entry_unknown_fails (g : Graph) (name : String)
    (h : registered g name = false) :
    set_entry g name = Except.error (ConfigError.unknownEntry name) := by
  simp [set_entry, h]

/-- C7 witness: setting the entry of the empty graph to `"greet"` fails
with a configuration error. -/
theorem set_entry_unknown_fails_witness :
    registered Graph.empty "greet" = false ∧
    set_entry Graph.empty "greet" =
      Except.error (ConfigError.unknownEntry "greet") :=
  ⟨rfl, set_entry_unknown_fails Graph.empty "greet" rfl⟩

/-- C8: the run loop consumes external input only at steps whose state has
`next_step` equal to the suspension sentinel — at any other step the
pending inputs are untouched and the state passes through unchanged; when
input is supplied at the sentinel, execution resumes with the same state
record extended by exactly the injected human message; and in the
demonstrated run exactly the one input of the suspension point is
consumed. -/
theorem input_request_only_at_sentinel :
    (∀ (susp : String) (inputs : List String) (s : State),
        s.next_step ≠ susp → injectInput susp inputs s = (inputs, s)) ∧
    (∀ (susp i : String) (rest : List String) (s : State),
        s.next_step = susp →
          injectInput susp (i :: rest) s =
            (rest, { s with messages := s.messages ++ [⟨"human", i⟩] })) ∧
    (∀ (i : String) (rest : List String) (init : State),
        (run workflow suspendSentinel 2 (i :: rest) init).2 = rest) := by
  refine ⟨?_, ?_, ?_⟩
  · intro susp inputs s h
    simp [injectInput, h]
  · intro susp i rest s h
    simp [injectInput, h]
  · intro i rest init
    simp [run, workflow, greetNode, runAux, lookupNode, greet, get_name,
          injectInput, consTrace, terminal, suspendSentinel,
          List.getLast?_concat]

/-- C8 witness: no input is consumed away from the sentinel, and the
demonstrated run started with the single pending input `"Rahul"` consumes
exactly that input. -/
theorem input_request_only_at_sentinel_witness :
    (("x" : String) ≠ "get_name") ∧
    injectInput "get_name" ["Rahul"] { messages := [], next_step := "x" } =
      (["Rahul"], { messages := [], next_step := "x" }) ∧
    (run workflow suspendSentinel 2 ["Rahul"]
        { messages := [], next_step := "" }).2 = [] :=
  ⟨by decide,
    input_request_only_at_sentinel.1 "get_name" ["Rahul"]
      { messages := [], next_step := "x" } (by decide),
    input_request_only_at_sentinel.2.2 "Rahul" []
      { messages := [], next_step := "" }⟩

/-- C9: `get_name` is defined exactly on states with a non-empty
`messages` list — on the empty list the last-message lookup has no value
and the node fails; on every state with at least one message it succeeds
and appends exactly one assistant reply whose content embeds the content
of the last message. -/
theorem get_name_defined_iff_messages_nonempty :
    (∀ s : State, s.messages = [] → get_name s = none) ∧
    (∀ s : State, s.messages ≠ [] → (get_name s).isSome = true) ∧
    (∀ (s : State) (m : Message), s.messages.getLast? = some m →
        get_name s = some { s with
          messages := s.messages ++
            [⟨"assistant",
              "Nice to meet you, " ++ m.content ++ "! How can I assist you today?"⟩],
          next_step := "end" }) := by
  refine ⟨?_, ?_, ?_⟩
  · intro s h; simp [get_name, h]
  · intro s h
    have hsome : s.messages.getLast?.isSome = true := List.getLast?_isSome.2 h
    rcases Option.isSome_iff_exists.1 hsome with ⟨m, hm⟩
    simp [get_name, hm]
  · intro s m hm; simp [get_name, hm]

/-- C9 witness: `get_name` fails on the empty state and succeeds on a
state holding the single human message `"Rahul"`, embedding that content
in its reply. -/
theorem get_name_defined_iff_messages_nonempty_witness :
    (({ messages := [], next_step := "" } : State).messages = []) ∧
    get_name { messages := [], next_step := "" } = none ∧
    (({ messages := [⟨"human", "Rahul"⟩], next_step := "" } :
        State).messages.getLast? = some ⟨"human", "Rahul"⟩) ∧
    get_name { messages := [⟨"human", "Rahul"⟩], next_step := "" } =
      some { messages := [⟨"human", "Rahul"⟩,
               ⟨"assistant",
                 "Nice to meet you, Rahul! How can I assist you today?"⟩],
             next_step := "end" } :=
  ⟨rfl,
    get_name_defined_iff_messages_nonempty.1
      { messages := [], next_step := "" } rfl,
    rfl,
    get_name_defined_iff_messages_nonempty.2.2
      { messages := [⟨"human", "Rahul"⟩], next_step := "" }
      ⟨"human", "Rahul"⟩ rfl⟩

/-- C10 (counterexample): the claim quantifies over every input state, but
`get_name` applied to the state with an empty `messages` list produces no
updated state at all (the out-of-bounds read), so it does not append a
message there. -/
theorem get_name_empty_state_no_append :
    ¬ ∃ s' : State, get_name { messages := [], next_step := "" } = some s' := by
  intro ⟨s', h⟩
  simp [get_name] at h

/-- C10 (amended): for every input state on which it is defined, each node
function mutates only the `messages` and `next_step` fields and appends
exactly one message at the end of `messages`, leaving every previously
present message unchanged in content and relative order: `greet` does so
on every state, and `get_name` on every state whose `messages` list is
non-empty. -/
theorem node_functions_append_one_message :
    (∀ s : State, greet s =
      { s with
        messages := s.messages ++
          [⟨"assistant", "Hello! What\x27s your name?"⟩],
        next_step := "get_name" }) ∧
    (∀ (s : State) (m : Message), s.messages.getLast? = some m →
        get_name s = some { s with
          messages := s.messages ++
            [⟨"assistant",
              "Nice to meet you, " ++ m.content ++ "! How can I assist you today?"⟩],
          next_step := "end" }) := by
  refine ⟨fun s => rfl, fun s m hm => by simp [get_name, hm]⟩

/-- C10 witness: the frame property instantiated on a concrete state with
one prior message, which both nodes extend by exactly one message. -/
theorem node_functions_append_one_message_witness :
    greet { messages := [⟨"human", "hi"⟩], next_step := "" } =
      { messages := [⟨"human", "hi"⟩,
          ⟨"assistant", "Hello! What\x27s your name?"⟩],
        next_step := "get_name" } ∧
    (({ messages := [⟨"human", "hi"⟩], next_step := "" } :
        State).messages.getLast? = some ⟨"human", "hi"⟩) ∧
    get_name { messages := [⟨"human", "hi"⟩], next_step := "" } =
      some { messages := [⟨"human", "hi"⟩,
               ⟨"assistant",
                 "Nice to meet you, hi! How can I assist you today?"⟩],
             next_step := "end" } :=
  ⟨node_functions_append_one_message.1
      { messages := [⟨"human", "hi"⟩], next_step := "" },
    rfl,
    node_functions_append_one_message.2
      { messages := [⟨"human", "hi"⟩], next_step := "" }
      ⟨"human", "hi"⟩ rfl⟩

end Tutorial07
